import Mathlib

/-!
Shallow embedding of `scripts/check_weather_stations.py` (the multi-provider
weather-station comparison engine) and proofs about it.

Modelling conventions:
* Coordinates and distances carried in records are rationals (`ℚ`); the
  haversine formula itself, being trigonometric, is embedded over `ℝ`.
* Python's `round(x, n)` and `f"{x:.4f}"` round half to even; `rhe` embeds
  that rounding (to an integer) and is applied at the right scale.
* Each provider adapter is parametrised by the transport outcome (`Fetch`)
  and, where the adapter computes distances, by an abstract rational
  distance function standing for the floating-point haversine call, so the
  structural properties proved here hold for every distance function.
* Python exception semantics inside an adapter's `try:` block are embedded
  explicitly: a record whose field fails `float()`/arithmetic aborts the
  loop, and since `return stations` sits outside the `try:`, the stations
  accumulated so far are returned.
-/

namespace CheckWeatherStations

/-- Round half to even (banker's rounding), as used by Python's `round`
and by `%.4f` string formatting: nearest integer, ties to the even one. -/
def rhe (x : ℚ) : ℤ :=
  if x - ⌊x⌋ < 1/2 then ⌊x⌋
  else if 1/2 < x - ⌊x⌋ then ⌊x⌋ + 1
  else if ⌊x⌋ % 2 = 0 then ⌊x⌋ else ⌊x⌋ + 1

/-- Python `round(d, 1)`: round to one decimal place, half to even. -/
def round1 (x : ℚ) : ℚ := (rhe (x * 10) : ℚ) / 10

/-- Normalized station record, as built by every adapter:
`{'name': ..., 'lat': ..., 'lon': ..., 'distance_km': ...}`. -/
structure Station where
  name : String
  lat : ℚ
  lon : ℚ
  distance_km : ℚ
deriving DecidableEq, Repr

/-- One coordinate's contribution to the dedup key string
`f"{station['lat']:.4f},{station['lon']:.4f}"`: the sign rendered by the
format (Python prints `-0.0000` for a negative value rounding to zero)
together with the value rounded to 4 decimal places (in units of 1e-4).
Two coordinates produce the same formatted field iff these agree. -/
def keyCoord (x : ℚ) : Bool × ℤ := (decide (x < 0), rhe (x * 10000))

/-- The type of StationKeys: one `keyCoord` per axis. -/
abbrev SKey : Type := (Bool × ℤ) × (Bool × ℤ)

/-- The StationKey of a coordinate pair, embedding the key string
`f"{lat:.4f},{lon:.4f}"` from `main` (line 406). -/
def stationKeyOf (lat lon : ℚ) : SKey :=
  (keyCoord lat, keyCoord lon)

/-- The StationKey of a station record. -/
def stationKey (s : Station) : SKey :=
  stationKeyOf s.lat s.lon

/-- `math.radians`: degrees to radians. -/
noncomputable def radians (x : ℝ) : ℝ := x * Real.pi / 180

/-- `haversine_distance` (lines 48-71): great-circle distance in km between
two points given in decimal degrees, Earth radius 6371 km. -/
noncomputable def haversine_distance (lat1 lon1 lat2 lon2 : ℝ) : ℝ :=
  let rlat1 := radians lat1
  let rlon1 := radians lon1
  let rlat2 := radians lat2
  let rlon2 := radians lon2
  let dlat := rlat2 - rlat1
  let dlon := rlon2 - rlon1
  let a := Real.sin (dlat/2)^2 + Real.cos rlat1 * Real.cos rlat2 * Real.sin (dlon/2)^2
  let c := 2 * Real.arcsin (Real.sqrt a)
  c * 6371

/-- The divisor of the bounding-box longitude delta in `query_awc_metar`
(line 218): `111.0 * math.cos(math.radians(lat))`. -/
noncomputable def awcLonDenominator (lat : ℝ) : ℝ :=
  111.0 * Real.cos (radians lat)

/-- A JSON field value on which the adapters call `float()` or do
arithmetic: either a usable number, or a value (string, null, ...) on which
the conversion or arithmetic raises. -/
inductive JVal : Type
  | num : ℚ → JVal
  | malformed : JVal
deriving DecidableEq, Repr

/-- Outcome of one HTTP fetch as seen from inside an adapter's `try:`:
a decoded body, or one of the failures (`requests` exception on network
error, `raise_for_status` on a non-2xx code, `response.json()` on a body
that is not JSON), each of which raises before the parse loop runs. -/
inductive Fetch (α : Type) : Type
  | ok : α → Fetch α
  | netError : Fetch α
  | httpError : Nat → Fetch α
  | badJson : Fetch α
deriving DecidableEq, Repr

/-- `true` on every non-`ok` transport outcome. -/
def Fetch.failed : Fetch α → Bool
  | .ok _ => false
  | _ => true

/-- `float(v)` applied to an optional field fetched with `.get(key, 0)`:
a missing field becomes `0`, a numeric value converts, and a malformed
value raises (modelled as `none`). -/
def pyFloatD0 : Option JVal → Option ℚ
  | none => some 0
  | some (JVal.num q) => some q
  | some JVal.malformed => none

/-- One FFVL beacon object: fields `nom`, `latitude`, `longitude` as the
adapter reads them (`beacon.get(...)`). -/
structure BeaconJ where
  nom : Option String
  latitude : Option JVal
  longitude : Option JVal
deriving DecidableEq, Repr

/-- The `for beacon in data:` loop of `query_ffvl` (lines 156-167), with
Python exception semantics: a beacon whose `latitude`/`longitude` fails
`float()` raises, the `except` swallows it, and the stations appended so
far are returned. -/
def ffvlLoop (dist : ℚ → ℚ → ℚ → ℚ → ℚ) (lat lon radius : ℚ) :
    List BeaconJ → List Station → List Station
  | [], acc => acc
  | b :: bs, acc =>
    match pyFloatD0 b.latitude, pyFloatD0 b.longitude with
    | some blat, some blon =>
      if dist lat lon blat blon ≤ radius then
        ffvlLoop dist lat lon radius bs
          (acc ++ [⟨b.nom.getD "Unknown", blat, blon,
                     round1 (dist lat lon blat blon)⟩])
      else
        ffvlLoop dist lat lon radius bs acc
    | _, _ => acc

/-- `query_ffvl` (lines 131-172). `dist` abstracts the floating-point
`haversine_distance` call; `keyConfigured` is the check on `FFVL_API_KEY`;
`resp` is the transport outcome of the beacon-list fetch. -/
def query_ffvl (dist : ℚ → ℚ → ℚ → ℚ → ℚ) (keyConfigured : Bool)
    (resp : Fetch (List BeaconJ)) (lat lon radius : ℚ) : List Station :=
  if keyConfigured then
    match resp with
    | .ok data => ffvlLoop dist lat lon radius data []
    | _ => []
  else []

/-- One Pioupiou station object: `station.get('id')`,
`station.get('meta', {})` with its `name`, `latitude`, `longitude`.
A missing `meta` object is the same as all meta fields missing. -/
structure PioupiouJ where
  id : Option String
  metaName : Option String
  metaLat : Option JVal
  metaLon : Option JVal
deriving DecidableEq, Repr

/-- The `for station in data.get('data', []):` loop of `query_pioupiou`
(lines 188-204): a station with a missing coordinate is skipped
(`continue`); a present but non-numeric coordinate raises inside
`haversine_distance` and aborts the loop, returning the stations so far. -/
def pioupiouLoop (dist : ℚ → ℚ → ℚ → ℚ → ℚ) (lat lon radius : ℚ) :
    List PioupiouJ → List Station → List Station
  | [], acc => acc
  | p :: ps, acc =>
    match p.metaLat, p.metaLon with
    | none, _ => pioupiouLoop dist lat lon radius ps acc
    | some _, none => pioupiouLoop dist lat lon radius ps acc
    | some (JVal.num plat), some (JVal.num plon) =>
      if dist lat lon plat plon ≤ radius then
        pioupiouLoop dist lat lon radius ps
          (acc ++ [⟨p.metaName.getD ("Pioupiou " ++ p.id.getD "Unknown"),
                     plat, plon, round1 (dist lat lon plat plon)⟩])
      else
        pioupiouLoop dist lat lon radius ps acc
    | _, _ => acc

/-- `query_pioupiou` (lines 174-209). The body's `data.get('data', [])`
is the outer `Option`. -/
def query_pioupiou (dist : ℚ → ℚ → ℚ → ℚ → ℚ)
    (resp : Fetch (Option (List PioupiouJ))) (lat lon radius : ℚ) :
    List Station :=
  match resp with
  | .ok body => pioupiouLoop dist lat lon radius (body.getD []) []
  | _ => []

/-- One AWC METAR station object: `name`, `icaoId`, `lat`, `lon`. -/
structure MetarJ where
  mName : Option String
  icaoId : Option String
  mLat : Option JVal
  mLon : Option JVal
deriving DecidableEq, Repr

/-- The `for station in data:` loop of `query_awc_metar` (lines 238-253):
a missing coordinate is skipped; a malformed one raises in
`haversine_distance` and aborts the loop, returning the stations so far. -/
def awcLoop (dist : ℚ → ℚ → ℚ → ℚ → ℚ) (lat lon radius : ℚ) :
    List MetarJ → List Station → List Station
  | [], acc => acc
  | m :: ms, acc =>
    match m.mLat, m.mLon with
    | none, _ => awcLoop dist lat lon radius ms acc
    | some _, none => awcLoop dist lat lon radius ms acc
    | some (JVal.num mlat), some (JVal.num mlon) =>
      if dist lat lon mlat mlon ≤ radius then
        awcLoop dist lat lon radius ms
          (acc ++ [⟨m.mName.getD "Unknown" ++ " (" ++ m.icaoId.getD "N/A" ++ ")",
                     mlat, mlon, round1 (dist lat lon mlat mlon)⟩])
      else
        awcLoop dist lat lon radius ms acc
    | _, _ => acc

/-- `query_awc_metar` (lines 211-258). The bounding box computed from
`lat`, `lon`, `radius` only parametrises the request URL; the response is
the `resp` argument. -/
def query_awc_metar (dist : ℚ → ℚ → ℚ → ℚ → ℚ)
    (resp : Fetch (List MetarJ)) (lat lon radius : ℚ) : List Station :=
  match resp with
  | .ok data => awcLoop dist lat lon radius data []
  | _ => []

/-- The geographic precondition of `query_nws` (lines 266-268):
continental US, Alaska, or Hawaii lat/lon envelopes. -/
def nwsCovered (lat lon : ℚ) : Bool :=
  (decide (-125 ≤ lon) && decide (lon ≤ -67) && decide (24 ≤ lat) && decide (lat ≤ 50)) ||
  (decide (-180 ≤ lon) && decide (lon ≤ -130) && decide (51 ≤ lat) && decide (lat ≤ 72)) ||
  (decide (-178 ≤ lon) && decide (lon ≤ -154) && decide (18 ≤ lat) && decide (lat ≤ 29))

/-- The `/points/{lat},{lon}` response body of `query_nws`: only the
`properties.observationStations` URL is read. -/
structure NwsPoints where
  observationStations : Option String
deriving DecidableEq, Repr

/-- One NWS station feature: `properties.name` and
`geometry.coordinates` (a JSON array, `[lon, lat, ...]`). -/
structure NwsFeature where
  propName : Option String
  coordinates : List JVal
deriving DecidableEq, Repr

/-- The `for station_url in stations_data.get('features', []):` loop of
`query_nws` (lines 299-316): fewer than two coordinates skips the record;
a malformed coordinate raises in `haversine_distance` and aborts the loop,
returning the stations so far. Note the coordinate order `[lon, lat]`. -/
def nwsLoop (dist : ℚ → ℚ → ℚ → ℚ → ℚ) (lat lon radius : ℚ) :
    List NwsFeature → List Station → List Station
  | [], acc => acc
  | f :: fs, acc =>
    match f.coordinates with
    | c0 :: c1 :: _ =>
      match c0, c1 with
      | JVal.num slon, JVal.num slat =>
        if dist lat lon slat slon ≤ radius then
          nwsLoop dist lat lon radius fs
            (acc ++ [⟨f.propName.getD "Unknown", slat, slon,
                       round1 (dist lat lon slat slon)⟩])
        else
          nwsLoop dist lat lon radius fs acc
      | _, _ => acc
    | _ => nwsLoop dist lat lon radius fs acc

/-- `query_nws` (lines 260-321). `resp1` is the `/points/...` fetch (a 404
returns early with the empty list; any other non-2xx raises and is
caught), `resp2` the observation-stations fetch; the body's
`data.get('features', [])` is the `Option` inside `resp2`. -/
def query_nws (dist : ℚ → ℚ → ℚ → ℚ → ℚ) (resp1 : Fetch NwsPoints)
    (resp2 : Fetch (Option (List NwsFeature))) (lat lon radius : ℚ) :
    List Station :=
  if nwsCovered lat lon then
    match resp1 with
    | .ok pts =>
      match pts.observationStations with
      | none => []
      | some _ =>
        match resp2 with
        | .ok body => nwsLoop dist lat lon radius (body.getD []) []
        | _ => []
    | _ => []
  else []

/-- The geographic precondition of `query_bom` (line 329): Australia. -/
def bomCovered (lat lon : ℚ) : Bool :=
  decide (113 ≤ lon) && decide (lon ≤ 154) && decide (-44 ≤ lat) && decide (lat ≤ -10)

/-- `query_bom` (lines 323-336): a stub that performs the envelope check
(printing a note when inside Australia) and returns no stations in either
case; it never issues a request. -/
def query_bom (lat lon _radius : ℚ) : List Station :=
  if bomCovered lat lon then [] else []

/-- Aggregation state: `station_providers` (a `defaultdict(set)`, embedded
as a total function into finite sets of provider names) and
`all_stations` (an insertion-ordered dict, embedded as an association list
in insertion order). -/
abbrev AggState : Type := (SKey → Finset String) × List (SKey × Station)

/-- `station_providers[station_key].add(provider_name)` (line 407): the
pointwise update of the provider-set map at one key. -/
def updateProviders (pname : String) (k : SKey) (m : SKey → Finset String) :
    SKey → Finset String :=
  fun k2 => if k2 = k then insert pname (m k2) else m k2

/-- The inner loop of `main`'s step 3 (lines 404-409) for one provider:
for each station, add the provider name to `station_providers[key]` and,
if the key is unseen, append `(key, station)` to `all_stations`. -/
def aggStations (pname : String) : List Station → AggState → AggState
  | [], st => st
  | s :: ss, (m, l) =>
    aggStations pname ss
      (updateProviders pname (stationKey s) m,
       if l.any (fun e => decide (e.1 = stationKey s)) then l
       else l ++ [(stationKey s, s)])

/-- The outer loop of `main`'s step 3 (line 403): fold over the
`providers` items in order, threading the aggregation state. -/
def aggregateAux : List (String × List Station) → AggState → AggState
  | [], st => st
  | (pname, ss) :: ps, st => aggregateAux ps (aggStations pname ss st)

/-- `main`'s step 3 (lines 399-409): build `station_providers` and
`all_stations` from the provider-name → station-list pairs in order. -/
def aggregate (ps : List (String × List Station)) : AggState :=
  aggregateAux ps (fun _ => ∅, [])

/-- The relation `sorted(..., key=lambda x: x[1]['distance_km'])` sorts
by. -/
def distLE (a b : SKey × Station) : Prop :=
  a.2.distance_km ≤ b.2.distance_km

instance : DecidableRel distLE := fun a b => by
  unfold distLE; infer_instance

instance : IsTotal (SKey × Station) distLE :=
  ⟨fun a b => le_total a.2.distance_km b.2.distance_km⟩

instance : IsTrans (SKey × Station) distLE :=
  ⟨fun _ _ _ h1 h2 => le_trans h1 h2⟩

/-- `sorted(all_stations.items(), key=lambda x: x[1]['distance_km'])`
(lines 428-431). Python's `sorted` is a stable sort by the given key;
insertion sort with the non-strict comparison `distLE` computes exactly
that stable sort. -/
def sortStations (l : List (SKey × Station)) : List (SKey × Station) :=
  List.insertionSort distLE l

/-- The reporter's two outcomes (lines 418-453): the explicit
"no weather stations found" message, or a table whose rows are the sorted
station entries. -/
inductive Report : Type
  | noStations : Report
  | table : List (SKey × Station) → Report
deriving DecidableEq

/-- Steps 3-5 of `main` on the provider outputs: aggregate, then either
report no stations (line 419-421) or emit the table rows in sorted order
(lines 428-451). -/
def report (ps : List (String × List Station)) : Report :=
  let agg := aggregate ps
  if agg.2 = [] then Report.noStations else Report.table (sortStations agg.2)

/-- Declarative reading of `station_providers[k]`: the providers whose
station list contains a record with key `k`, independent of order. -/
def observedBy (ps : List (String × List Station)) (k : SKey) : Finset String :=
  ((ps.filter (fun p => p.2.any (fun s => decide (stationKey s = k)))).map
    Prod.fst).toFinset

/-- Declarative reading of the key set of `all_stations`: the keys of all
stations of all providers, independent of order. -/
def keysOf (ps : List (String × List Station)) : Finset SKey :=
  ((ps.flatMap (fun p => p.2)).map stationKey).toFinset

/-! ### Properties of the rounding function -/

/-- Any value strictly within one half of an integer rounds to it. -/
theorem rhe_eq_of_abs_lt (x : ℚ) (k : ℤ) (h : |x - (k : ℚ)| < 1/2) :
    rhe x = k := by
  rw [abs_lt] at h
  obtain ⟨h1, h2⟩ := h
  unfold rhe
  by_cases hx : (k : ℚ) ≤ x
  · have hf : ⌊x⌋ = k := by
      rw [Int.floor_eq_iff]
      refine ⟨hx, by linarith⟩
    rw [hf, if_pos (by linarith)]
  · have hx' : x < (k : ℚ) := not_le.mp hx
    have hf : ⌊x⌋ = k - 1 := by
      rw [Int.floor_eq_iff]
      constructor <;> push_cast <;> linarith
    rw [hf, if_neg (by push_cast; linarith), if_pos (by push_cast; linarith)]
    omega

/-- Round half to even moves a value by at most one half. -/
theorem abs_rhe_sub_le (x : ℚ) : |(rhe x : ℚ) - x| ≤ 1/2 := by
  have hfl : (⌊x⌋ : ℚ) ≤ x := Int.floor_le x
  have hfu : x < (⌊x⌋ : ℚ) + 1 := Int.lt_floor_add_one x
  unfold rhe
  rw [abs_le]
  split_ifs with h1 h2 h3
  · constructor <;> linarith
  · push_cast
    constructor <;> linarith
  · have he : x - (⌊x⌋ : ℚ) = 1/2 := le_antisymm (not_lt.mp h2) (not_lt.mp h1)
    constructor <;> linarith
  · have he : x - (⌊x⌋ : ℚ) = 1/2 := le_antisymm (not_lt.mp h2) (not_lt.mp h1)
    push_cast
    constructor <;> linarith

/-- `round(d, 1)` can raise a value by at most 0.05. -/
theorem round1_le (x : ℚ) : round1 x ≤ x + 1/20 := by
  have h := abs_rhe_sub_le (x * 10)
  rw [abs_le] at h
  unfold round1
  linarith [h.2]

/-! ### C2: the station-key deduplication bounds -/

/-- C2 counterexample: the two station records at latitudes 0.00002 and
0.00006 (same longitude 0) have coordinates differing by less than
0.00005 degrees in each axis, yet the 4-decimal key computation assigns
them different StationKeys (`"0.0000,0.0000"` vs `"0.0001,0.0000"`),
refuting the claim's same-key half. -/
theorem c2_close_records_distinct_keys :
    |(2/100000 : ℚ) - 6/100000| < 5/100000 ∧ |(0 : ℚ) - 0| < 5/100000 ∧
    stationKey ⟨"A", 2/100000, 0, 0⟩ ≠ stationKey ⟨"B", 6/100000, 0, 0⟩ := by
  refine ⟨abs_lt.mpr (by norm_num), abs_lt.mpr (by norm_num), ?_⟩
  have h1 : rhe ((2/100000 : ℚ) * 10000) = 0 :=
    rhe_eq_of_abs_lt _ 0 (abs_lt.mpr (by norm_num))
  have h2 : rhe ((6/100000 : ℚ) * 10000) = 1 :=
    rhe_eq_of_abs_lt _ 1 (abs_lt.mpr (by norm_num))
  simp [stationKey, stationKeyOf, keyCoord, h1, h2]

/-- C2 (amended): if on each axis the two coordinates lie strictly within
half a grid step (0.00005 degrees) of a common multiple of 0.0001 degrees
and agree in formatted sign, the key computation assigns the records the
same StationKey; and if they differ by more than 0.0001 degrees on either
axis, it assigns them different StationKeys. -/
theorem c2_station_key_separation (lat1 lon1 lat2 lon2 : ℚ) :
    ((∃ ka : ℤ, |lat1 * 10000 - ka| < 1/2 ∧ |lat2 * 10000 - ka| < 1/2) →
     (∃ ko : ℤ, |lon1 * 10000 - ko| < 1/2 ∧ |lon2 * 10000 - ko| < 1/2) →
     ((lat1 < 0) ↔ (lat2 < 0)) → ((lon1 < 0) ↔ (lon2 < 0)) →
     stationKeyOf lat1 lon1 = stationKeyOf lat2 lon2) ∧
    ((1/10000 < |lat1 - lat2| ∨ 1/10000 < |lon1 - lon2|) →
     stationKeyOf lat1 lon1 ≠ stationKeyOf lat2 lon2) := by
  constructor
  · rintro ⟨ka, hka1, hka2⟩ ⟨ko, hko1, hko2⟩ hslat hslon
    unfold stationKeyOf keyCoord
    rw [rhe_eq_of_abs_lt _ _ hka1, rhe_eq_of_abs_lt _ _ hka2,
        rhe_eq_of_abs_lt _ _ hko1, rhe_eq_of_abs_lt _ _ hko2,
        decide_eq_decide.mpr hslat, decide_eq_decide.mpr hslon]
  · intro hfar heq
    unfold stationKeyOf keyCoord at heq
    have hlat : rhe (lat1 * 10000) = rhe (lat2 * 10000) :=
      congrArg (fun p : SKey => p.1.2) heq
    have hlon : rhe (lon1 * 10000) = rhe (lon2 * 10000) :=
      congrArg (fun p : SKey => p.2.2) heq
    have key_close : ∀ a b : ℚ, rhe (a * 10000) = rhe (b * 10000) →
        |a - b| ≤ 1/10000 := by
      intro a b hab
      have h1 := abs_rhe_sub_le (a * 10000)
      have h2 := abs_rhe_sub_le (b * 10000)
      rw [hab] at h1
      have h3 : |a * 10000 - b * 10000| ≤ 1 := by
        calc |a * 10000 - b * 10000|
            = |(a * 10000 - (rhe (b * 10000) : ℚ)) +
               ((rhe (b * 10000) : ℚ) - b * 10000)| := congrArg abs (by ring)
          _ ≤ |a * 10000 - (rhe (b * 10000) : ℚ)| +
               |(rhe (b * 10000) : ℚ) - b * 10000| := abs_add _ _
          _ ≤ 1/2 + 1/2 := by
              rw [abs_sub_comm] at h1
              exact add_le_add h1 h2
          _ = 1 := by norm_num
      have h4 : |a - b| * 10000 ≤ 1 := by
        calc |a - b| * 10000 = |a - b| * |(10000 : ℚ)| := by norm_num
          _ = |(a - b) * 10000| := (abs_mul _ _).symm
          _ = |a * 10000 - b * 10000| := congrArg abs (by ring)
          _ ≤ 1 := h3
      linarith
    rcases hfar with h | h
    · exact absurd (key_close _ _ hlat) (not_le.mpr h)
    · exact absurd (key_close _ _ hlon) (not_le.mpr h)

/-- C2 witness: latitudes 0.00002 and 0.00004 (common grid point 0) get
the same key; latitudes 0 and 0.00021 (differing by more than 0.0001) get
different keys. -/
theorem c2_station_key_separation_witness :
    stationKeyOf (2/100000) 0 = stationKeyOf (4/100000) 0 ∧
    stationKeyOf 0 0 ≠ stationKeyOf (21/100000) 0 := by
  constructor
  · exact (c2_station_key_separation (2/100000) 0 (4/100000) 0).1
      ⟨0, abs_lt.mpr (by norm_num), abs_lt.mpr (by norm_num)⟩
      ⟨0, abs_lt.mpr (by norm_num), abs_lt.mpr (by norm_num)⟩
      (by norm_num) (by norm_num)
  · exact (c2_station_key_separation 0 0 (21/100000) 0).2
      (Or.inl (lt_of_lt_of_le (by norm_num)
        (le_trans (le_abs_self _) (le_of_eq (abs_sub_comm _ _)))))

/-! ### C7: symmetry of the haversine distance -/

/-- C7 (confirmed): `haversine_distance` is symmetric in its two points:
swapping `(lat1, lon1)` with `(lat2, lon2)` yields the same distance. -/
theorem c7_haversine_distance_symm (lat1 lon1 lat2 lon2 : ℝ) :
    haversine_distance lat1 lon1 lat2 lon2 =
      haversine_distance lat2 lon2 lat1 lon1 := by
  have hs : ∀ x y : ℝ, Real.sin ((x - y)/2)^2 = Real.sin ((y - x)/2)^2 := by
    intro x y
    rw [show (x - y)/2 = -((y - x)/2) by ring, Real.sin_neg]
    ring
  simp only [haversine_distance]
  rw [hs (radians lat2) (radians lat1), hs (radians lon2) (radians lon1),
      mul_comm (Real.cos (radians lat1)) (Real.cos (radians lat2))]

/-! ### C10: the METAR bounding-box divisor is nonzero -/

/-- C10 (confirmed): for any target latitude strictly between -90 and 90
degrees, the divisor `111.0 * cos(radians(lat))` of the bounding-box
longitude delta in `query_awc_metar` is nonzero (indeed positive), so the
division is well-defined and the division-by-zero branch is unreachable. -/
theorem c10_awc_lon_denominator_ne_zero (lat : ℝ) (h1 : -90 < lat)
    (h2 : lat < 90) : awcLonDenominator lat ≠ 0 := by
  unfold awcLonDenominator radians
  have hpi := Real.pi_pos
  have hc : 0 < Real.cos (lat * Real.pi / 180) := by
    apply Real.cos_pos_of_mem_Ioo
    constructor
    · show -(Real.pi / 2) < lat * Real.pi / 180
      nlinarith [mul_pos (show (0:ℝ) < lat + 90 by linarith) hpi]
    · show lat * Real.pi / 180 < Real.pi / 2
      nlinarith [mul_pos (show (0:ℝ) < 90 - lat by linarith) hpi]
  exact ne_of_gt (mul_pos (by norm_num) hc)

/-- C10 witness: the divisor is nonzero at latitude 45. -/
theorem c10_awc_lon_denominator_ne_zero_witness :
    (-90 : ℝ) < 45 ∧ (45 : ℝ) < 90 ∧ awcLonDenominator 45 ≠ 0 :=
  ⟨by norm_num, by norm_num,
    c10_awc_lon_denominator_ne_zero 45 (by norm_num) (by norm_num)⟩

/-! ### Characterizing the aggregation loop -/

/-- One provider's pass updates `station_providers[k]` by adding the
provider name exactly when one of its stations has key `k`. -/
theorem aggStations_fst (pname : String) :
    ∀ (ss : List Station) (m : SKey → Finset String)
      (l : List (SKey × Station)) (k : SKey),
      (aggStations pname ss (m, l)).1 k =
        if ss.any (fun s => decide (stationKey s = k)) then
          insert pname (m k)
        else m k := by
  intro ss
  induction ss with
  | nil => intro m l k; simp [aggStations]
  | cons s ss ih =>
    intro m l k
    rw [aggStations, ih]
    simp only [List.any_cons, updateProviders]
    by_cases hk : k = stationKey s
    · have hd : decide (stationKey s = k) = true := decide_eq_true hk.symm
      simp only [hd, if_pos hk, Bool.true_or]
      split_ifs <;> simp [Finset.insert_idem]
    · have hd : decide (stationKey s = k) = false :=
        decide_eq_false (fun h => hk h.symm)
      simp only [hd, if_neg hk, Bool.false_or]

/-- One provider's pass extends the key set of `all_stations` by exactly
the keys of its stations. -/
theorem aggStations_snd_keys (pname : String) :
    ∀ (ss : List Station) (m : SKey → Finset String)
      (l : List (SKey × Station)),
      ((aggStations pname ss (m, l)).2.map Prod.fst).toFinset =
        (l.map Prod.fst).toFinset ∪ (ss.map stationKey).toFinset := by
  intro ss
  induction ss with
  | nil => intro m l; simp [aggStations]
  | cons s ss ih =>
    intro m l
    rw [aggStations, ih]
    have hstep :
        (((if l.any (fun e => decide (e.1 = stationKey s)) then l
           else l ++ [(stationKey s, s)]).map Prod.fst).toFinset :
          Finset SKey) =
        (l.map Prod.fst).toFinset ∪ {stationKey s} := by
      by_cases hc : l.any (fun e => decide (e.1 = stationKey s))
      · rw [if_pos hc]
        obtain ⟨e, he, hek⟩ := List.any_eq_true.mp hc
        have : stationKey s ∈ (l.map Prod.fst).toFinset := by
          rw [List.mem_toFinset, List.mem_map]
          exact ⟨e, he, of_decide_eq_true hek⟩
        rw [Finset.union_eq_left.mpr (Finset.singleton_subset_iff.mpr this)]
      · rw [if_neg hc]
        simp
    rw [hstep]
    rw [List.map_cons, List.toFinset_cons, Finset.insert_eq,
      Finset.union_assoc]

/-- The aggregation's `station_providers` is `observedBy` (joined with
whatever was already in the accumulator). -/
theorem aggregateAux_fst :
    ∀ (ps : List (String × List Station)) (st : AggState) (k : SKey),
      (aggregateAux ps st).1 k = observedBy ps k ∪ st.1 k := by
  intro ps
  induction ps with
  | nil => intro st k; simp [aggregateAux, observedBy]
  | cons p ps ih =>
    intro st k
    obtain ⟨pname, ss⟩ := p
    obtain ⟨m, l⟩ := st
    rw [aggregateAux, ih, aggStations_fst]
    unfold observedBy
    rw [List.filter_cons]
    by_cases hc : ss.any (fun s => decide (stationKey s = k))
    · simp [hc, Finset.union_insert, Finset.insert_union]
    · simp [hc]

/-- The aggregation's `all_stations` has key set `keysOf` (joined with
whatever was already in the accumulator). -/
theorem aggregateAux_snd_keys :
    ∀ (ps : List (String × List Station)) (st : AggState),
      ((aggregateAux ps st).2.map Prod.fst).toFinset =
        keysOf ps ∪ (st.2.map Prod.fst).toFinset := by
  intro ps
  induction ps with
  | nil => intro st; simp [aggregateAux, keysOf]
  | cons p ps ih =>
    intro st
    obtain ⟨pname, ss⟩ := p
    obtain ⟨m, l⟩ := st
    rw [aggregateAux, ih, aggStations_snd_keys]
    unfold keysOf
    rw [List.flatMap_cons, List.map_append, List.toFinset_append]
    rw [Finset.union_comm ((ss.map stationKey).toFinset)]
    rw [Finset.union_assoc, Finset.union_comm ((l.map Prod.fst).toFinset),
      ← Finset.union_assoc]

/-! ### C3: order-independence of the aggregation -/

/-- C3 counterexample: two providers report the same physical key
(latitudes 45.92 and 45.92004 both format to `"45.9200"`) with different
rounded distances (2.3 km and 2.4 km). Swapping the provider order (a
permutation) changes the one aggregated entry's distance, refuting the
claim that each key's distance is order-independent. -/
theorem c3_representative_distance_depends_on_order :
    ([("P1", [(⟨"A", 4592/100, 691/100, 23/10⟩ : Station)]),
      ("P2", [(⟨"B", 4592004/100000, 691/100, 24/10⟩ : Station)])].Perm
     [("P2", [(⟨"B", 4592004/100000, 691/100, 24/10⟩ : Station)]),
      ("P1", [(⟨"A", 4592/100, 691/100, 23/10⟩ : Station)])]) ∧
    (aggregate [("P1", [⟨"A", 4592/100, 691/100, 23/10⟩]),
                ("P2", [⟨"B", 4592004/100000, 691/100, 24/10⟩])]).2.map
        (fun e => e.2.distance_km) = [23/10] ∧
    (aggregate [("P2", [⟨"B", 4592004/100000, 691/100, 24/10⟩]),
                ("P1", [⟨"A", 4592/100, 691/100, 23/10⟩])]).2.map
        (fun e => e.2.distance_km) = [24/10] ∧
    (23/10 : ℚ) ≠ 24/10 := by
  have kA : stationKey ⟨"A", 4592/100, 691/100, 23/10⟩ =
      ((false, 459200), (false, 69100)) := by
    unfold stationKey stationKeyOf keyCoord
    rw [rhe_eq_of_abs_lt _ 459200 (abs_lt.mpr (by norm_num)),
        rhe_eq_of_abs_lt _ 69100 (abs_lt.mpr (by norm_num))]
    norm_num
  have kB : stationKey ⟨"B", 4592004/100000, 691/100, 24/10⟩ =
      ((false, 459200), (false, 69100)) := by
    unfold stationKey stationKeyOf keyCoord
    rw [rhe_eq_of_abs_lt _ 459200 (abs_lt.mpr (by norm_num)),
        rhe_eq_of_abs_lt _ 69100 (abs_lt.mpr (by norm_num))]
    norm_num
  refine ⟨List.Perm.swap _ _ _, ?_, ?_, by norm_num⟩
  · simp [aggregate, aggregateAux, aggStations, kA, kB]
  · simp [aggregate, aggregateAux, aggStations, kA, kB]

/-- C3 (amended): aggregation is commutative in the provider order up to
the representative records: for any permutation of the provider-name →
station-list pairs, the set of StationKeys of `all_stations` and every
key's `observed_by` provider set are unchanged (the representative record,
and hence its reported distance, may differ). -/
theorem c3_aggregation_perm_invariant (ps ps' : List (String × List Station))
    (h : ps.Perm ps') :
    ((aggregate ps).2.map Prod.fst).toFinset =
      ((aggregate ps').2.map Prod.fst).toFinset ∧
    ∀ k : SKey, (aggregate ps).1 k = (aggregate ps').1 k := by
  constructor
  · unfold aggregate
    rw [aggregateAux_snd_keys, aggregateAux_snd_keys]
    have : keysOf ps = keysOf ps' := by
      unfold keysOf
      apply Finset.ext
      intro x
      simp only [List.mem_toFinset, List.mem_map, List.mem_flatMap,
        h.mem_iff]
    rw [this]
  · intro k
    unfold aggregate
    rw [aggregateAux_fst, aggregateAux_fst]
    have : observedBy ps k = observedBy ps' k := by
      unfold observedBy
      apply Finset.ext
      intro n
      simp only [List.mem_toFinset, List.mem_map, List.mem_filter,
        h.mem_iff]
    rw [this]

/-- C3 witness: a concrete two-provider swap: key sets and observed-by
sets agree across the two processing orders. -/
theorem c3_aggregation_perm_invariant_witness :
    ((aggregate [("P1", [⟨"A", 1, 2, 3⟩]), ("P2", [])]).2.map
        Prod.fst).toFinset =
      ((aggregate [("P2", []), ("P1", [⟨"A", 1, 2, 3⟩])]).2.map
        Prod.fst).toFinset ∧
    ∀ k : SKey, (aggregate [("P1", [⟨"A", 1, 2, 3⟩]), ("P2", [])]).1 k =
      (aggregate [("P2", []), ("P1", [⟨"A", 1, 2, 3⟩])]).1 k :=
  c3_aggregation_perm_invariant _ _ (List.Perm.swap _ _ _)

/-! ### C4: the reporter's sort order -/

/-- Inserting an element with the filtered-on distance prepends it to the
filtered list: every element `orderedInsert` skips is strictly closer. -/
theorem filter_orderedInsert_eq (d : ℚ) (x : SKey × Station)
    (hx : x.2.distance_km = d) :
    ∀ l : List (SKey × Station),
      (List.orderedInsert distLE x l).filter
          (fun e => decide (e.2.distance_km = d)) =
        x :: l.filter (fun e => decide (e.2.distance_km = d)) := by
  intro l
  induction l with
  | nil => simp [List.orderedInsert, hx]
  | cons y ys ih =>
    rw [List.orderedInsert]
    by_cases h : distLE x y
    · rw [if_pos h]
      simp [hx]
    · rw [if_neg h]
      have hy : y.2.distance_km ≠ d := by
        intro hyd
        apply h
        unfold distLE
        rw [hx, hyd]
      simp [List.filter_cons, hy, ih]

/-- Inserting an element with a different distance leaves the filtered
list unchanged. -/
theorem filter_orderedInsert_ne (d : ℚ) (x : SKey × Station)
    (hx : x.2.distance_km ≠ d) :
    ∀ l : List (SKey × Station),
      (List.orderedInsert distLE x l).filter
          (fun e => decide (e.2.distance_km = d)) =
        l.filter (fun e => decide (e.2.distance_km = d)) := by
  intro l
  induction l with
  | nil => simp [List.orderedInsert, hx]
  | cons y ys ih =>
    rw [List.orderedInsert]
    by_cases h : distLE x y
    · rw [if_pos h]
      simp [hx]
    · rw [if_neg h]
      rw [List.filter_cons, List.filter_cons, ih]

/-- The reporter's sort is stable: for every distance value, the rows
carrying that distance appear in the same relative order as in
`all_stations`. -/
theorem sortStations_filter (d : ℚ) :
    ∀ l : List (SKey × Station),
      (sortStations l).filter (fun e => decide (e.2.distance_km = d)) =
        l.filter (fun e => decide (e.2.distance_km = d)) := by
  intro l
  induction l with
  | nil => rfl
  | cons x xs ih =>
    show (List.orderedInsert distLE x (sortStations xs)).filter _ = _
    by_cases hx : x.2.distance_km = d
    · rw [filter_orderedInsert_eq d x hx, ih, List.filter_cons]
      simp [hx]
    · rw [filter_orderedInsert_ne d x hx, ih, List.filter_cons]
      simp [hx]

/-- C4 counterexample: two aggregated entries with equal distances but
different StationKeys. The reporter's sort keeps them in insertion order:
presenting the same two entries in the two possible orders yields two
different outputs, so ties are not broken by StationKey and the row order
is not determined by the aggregated mapping alone. -/
theorem c4_tie_order_not_key_determined :
    ([(stationKeyOf 1 0, (⟨"A", 1, 0, 5⟩ : Station)),
      (stationKeyOf 2 0, (⟨"B", 2, 0, 5⟩ : Station))].Perm
     [(stationKeyOf 2 0, (⟨"B", 2, 0, 5⟩ : Station)),
      (stationKeyOf 1 0, (⟨"A", 1, 0, 5⟩ : Station))]) ∧
    (⟨"A", 1, 0, 5⟩ : Station).distance_km =
      (⟨"B", 2, 0, 5⟩ : Station).distance_km ∧
    stationKeyOf 1 0 ≠ stationKeyOf 2 0 ∧
    sortStations [(stationKeyOf 1 0, ⟨"A", 1, 0, 5⟩),
                  (stationKeyOf 2 0, ⟨"B", 2, 0, 5⟩)] =
      [(stationKeyOf 1 0, ⟨"A", 1, 0, 5⟩),
       (stationKeyOf 2 0, ⟨"B", 2, 0, 5⟩)] ∧
    sortStations [(stationKeyOf 2 0, ⟨"B", 2, 0, 5⟩),
                  (stationKeyOf 1 0, ⟨"A", 1, 0, 5⟩)] =
      [(stationKeyOf 2 0, ⟨"B", 2, 0, 5⟩),
       (stationKeyOf 1 0, ⟨"A", 1, 0, 5⟩)] := by
  have k1 : stationKeyOf 1 0 = ((false, 10000), (false, 0)) := by
    unfold stationKeyOf keyCoord
    rw [rhe_eq_of_abs_lt _ 10000 (abs_lt.mpr (by norm_num)),
        rhe_eq_of_abs_lt _ 0 (abs_lt.mpr (by norm_num))]
    norm_num
  have k2 : stationKeyOf 2 0 = ((false, 20000), (false, 0)) := by
    unfold stationKeyOf keyCoord
    rw [rhe_eq_of_abs_lt _ 20000 (abs_lt.mpr (by norm_num)),
        rhe_eq_of_abs_lt _ 0 (abs_lt.mpr (by norm_num))]
    norm_num
  refine ⟨List.Perm.swap _ _ _, rfl, by simp [k1, k2], ?_, ?_⟩
  · simp [sortStations, List.insertionSort, List.orderedInsert, distLE]
  · simp [sortStations, List.insertionSort, List.orderedInsert, distLE]

/-- C4 (amended): the reporter's rows are the aggregated entries sorted
ascending by the representative record's `distance_km`; the sort is a
permutation of `all_stations` and is stable, so ties between equal
distances keep the aggregation insertion order (first-seen order), not any
StationKey order. -/
theorem c4_rows_sorted_distance_stable (ps : List (String × List Station)) :
    List.Sorted distLE (sortStations (aggregate ps).2) ∧
    (sortStations (aggregate ps).2).Perm (aggregate ps).2 ∧
    ∀ d : ℚ,
      (sortStations (aggregate ps).2).filter
          (fun e => decide (e.2.distance_km = d)) =
        (aggregate ps).2.filter (fun e => decide (e.2.distance_km = d)) := by
  refine ⟨?_, ?_, fun d => sortStations_filter d _⟩
  · exact List.sorted_insertionSort distLE _
  · exact List.perm_insertionSort distLE _

/-! ### C5: the NWS geographic precondition short-circuits -/

/-- C5 (confirmed): for a target failing the US envelope check,
`query_nws` returns the empty list whatever the transports would answer —
the result does not depend on either network response, so no network call
is needed. -/
theorem c5_nws_out_of_envelope_empty (dist : ℚ → ℚ → ℚ → ℚ → ℚ)
    (lat lon radius : ℚ) (h : nwsCovered lat lon = false)
    (resp1 : Fetch NwsPoints) (resp2 : Fetch (Option (List NwsFeature))) :
    query_nws dist resp1 resp2 lat lon radius = [] := by
  unfold query_nws
  rw [h]
  simp

/-- C5 witness: Paris `(48.0, 2.0)` is outside the envelopes, and the
query returns no stations even against a transport that would offer a
grid and a station list. -/
theorem c5_nws_out_of_envelope_empty_witness :
    nwsCovered 48 2 = false ∧
    query_nws (fun _ _ _ _ => 0) (Fetch.ok ⟨some "url"⟩)
      (Fetch.ok (some [⟨some "S", [JVal.num 2, JVal.num 48]⟩])) 48 2 50 = [] := by
  have h : nwsCovered 48 2 = false := by
    unfold nwsCovered
    norm_num
  exact ⟨h, c5_nws_out_of_envelope_empty _ 48 2 50 h _ _⟩

/-! ### C6: the empty-everywhere run reports "no stations" -/

/-- When every provider's list is empty the aggregation leaves the state
unchanged. -/
theorem aggregateAux_all_empty (ps : List (String × List Station))
    (h : ∀ p ∈ ps, p.2 = []) (st : AggState) : aggregateAux ps st = st := by
  induction ps with
  | nil => rfl
  | cons p ps ih =>
    obtain ⟨pname, ss⟩ := p
    have hss : ss = [] := h (pname, ss) (List.mem_cons_self _ _)
    rw [aggregateAux, hss]
    exact ih (fun q hq => h q (List.mem_cons_of_mem _ hq))

/-- C6 (confirmed): if every provider returns an empty station list, the
reporter takes the explicit no-stations branch and emits no table. -/
theorem c6_all_empty_reports_no_stations (ps : List (String × List Station))
    (h : ∀ p ∈ ps, p.2 = []) : report ps = Report.noStations := by
  unfold report aggregate
  rw [aggregateAux_all_empty ps h]
  simp

/-- C6 witness: a run with two providers both returning the empty list. -/
theorem c6_all_empty_reports_no_stations_witness :
    report [("FFVL Beacons", []), ("Pioupiou", [])] = Report.noStations :=
  c6_all_empty_reports_no_stations _ (by simp)

/-! ### C1: failure behaviour of the adapters -/

/-- C1 counterexample: a fetch that succeeds at the transport level but
whose second record has a malformed latitude. The `except` catches the
`float()` error after the first station was already appended, and
`return stations` (outside the `try:`) returns that partially built,
non-empty list rather than an empty one. -/
theorem c1_parse_failure_returns_partial_list :
    query_ffvl (fun _ _ _ _ => 0) true
      (Fetch.ok [⟨some "Good", some (JVal.num 1), some (JVal.num 1)⟩,
                 ⟨some "Bad", some JVal.malformed, some (JVal.num 2)⟩])
      0 0 50 = [⟨"Good", 1, 1, 0⟩] ∧
    ([(⟨"Good", 1, 1, 0⟩ : Station)] : List Station) ≠ [] := by
  constructor
  · have hr : round1 ((fun _ _ _ _ => (0:ℚ)) 0 0 1 1) = 0 := by
      unfold round1 rhe
      norm_num
    simp [query_ffvl, ffvlLoop, pyFloatD0, hr]
  · simp

/-- C1 (amended): no adapter ever raises to its caller (each is a total
function), and every transport-level failure — network error, non-2xx
HTTP status, or malformed JSON body — yields the empty station list for
all five adapters (for NWS, a failure of either of its two fetches). A
per-record parse failure, by contrast, only stops the loop and returns
the stations accumulated so far. -/
theorem c1_transport_failure_empty (dist : ℚ → ℚ → ℚ → ℚ → ℚ)
    (keyConfigured : Bool) (lat lon radius : ℚ)
    (e1 : Fetch (List BeaconJ)) (e2 : Fetch (Option (List PioupiouJ)))
    (e3 : Fetch (List MetarJ)) (e4 : Fetch NwsPoints)
    (e5 : Fetch (Option (List NwsFeature))) (pts : NwsPoints)
    (h1 : e1.failed = true) (h2 : e2.failed = true) (h3 : e3.failed = true)
    (h4 : e4.failed = true) (h5 : e5.failed = true) :
    query_ffvl dist keyConfigured e1 lat lon radius = [] ∧
    query_pioupiou dist e2 lat lon radius = [] ∧
    query_awc_metar dist e3 lat lon radius = [] ∧
    query_nws dist e4 e5 lat lon radius = [] ∧
    query_nws dist (Fetch.ok pts) e5 lat lon radius = [] ∧
    query_bom lat lon radius = [] := by
  refine ⟨?_, ?_, ?_, ?_, ?_, ?_⟩
  · cases e1 <;> simp_all [query_ffvl, Fetch.failed]
  · cases e2 <;> simp_all [query_pioupiou, Fetch.failed]
  · cases e3 <;> simp_all [query_awc_metar, Fetch.failed]
  · cases e4 with
    | ok _ => simp [Fetch.failed] at h4
    | netError => unfold query_nws; split <;> rfl
    | httpError code => unfold query_nws; split <;> rfl
    | badJson => unfold query_nws; split <;> rfl
  · unfold query_nws
    split
    · cases e5 with
      | ok _ => simp [Fetch.failed] at h5
      | netError => cases hob : pts.observationStations <;> simp [hob]
      | httpError code => cases hob : pts.observationStations <;> simp [hob]
      | badJson => cases hob : pts.observationStations <;> simp [hob]
    · rfl
  · unfold query_bom
    split <;> rfl

/-- C1 witness: a network error, a bad HTTP status, and malformed JSON
all yield empty results at a concrete target. -/
theorem c1_transport_failure_empty_witness :
    query_ffvl (fun _ _ _ _ => 0) true Fetch.netError 0 0 50 = [] ∧
    query_pioupiou (fun _ _ _ _ => 0) (Fetch.httpError 500) 0 0 50 = [] ∧
    query_awc_metar (fun _ _ _ _ => 0) Fetch.badJson 0 0 50 = [] ∧
    query_nws (fun _ _ _ _ => 0) Fetch.netError (Fetch.httpError 503)
      0 0 50 = [] ∧
    query_nws (fun _ _ _ _ => 0) (Fetch.ok ⟨some "url"⟩)
      (Fetch.httpError 503) 0 0 50 = [] ∧
    query_bom 0 0 50 = [] :=
  c1_transport_failure_empty (fun _ _ _ _ => 0) true 0 0 50
    Fetch.netError (Fetch.httpError 500) Fetch.badJson Fetch.netError
    (Fetch.httpError 503) ⟨some "url"⟩ rfl rfl rfl rfl rfl

/-! ### C8: missing coordinates: FFVL defaults to 0, Pioupiou skips -/

/-- C8 (confirmed): a beacon whose `latitude` or `longitude` field is
missing (or both) is not skipped by `query_ffvl`: `beacon.get(..., 0)`
defaults each missing coordinate to 0, and the record is included, placed
at latitude 0 and/or longitude 0, whenever the defaulted point is within
the radius — while `query_pioupiou` skips any station missing either
coordinate. -/
theorem c8_ffvl_defaults_pioupiou_skips (dist : ℚ → ℚ → ℚ → ℚ → ℚ)
    (lat lon radius : ℚ) (b : BeaconJ) (blat blon : ℚ) (p : PioupiouJ) :
    (b.latitude = none → b.longitude = some (JVal.num blon) →
      dist lat lon 0 blon ≤ radius →
      query_ffvl dist true (Fetch.ok [b]) lat lon radius =
        [⟨b.nom.getD "Unknown", 0, blon, round1 (dist lat lon 0 blon)⟩]) ∧
    (b.latitude = some (JVal.num blat) → b.longitude = none →
      dist lat lon blat 0 ≤ radius →
      query_ffvl dist true (Fetch.ok [b]) lat lon radius =
        [⟨b.nom.getD "Unknown", blat, 0, round1 (dist lat lon blat 0)⟩]) ∧
    (b.latitude = none → b.longitude = none →
      dist lat lon 0 0 ≤ radius →
      query_ffvl dist true (Fetch.ok [b]) lat lon radius =
        [⟨b.nom.getD "Unknown", 0, 0, round1 (dist lat lon 0 0)⟩]) ∧
    (p.metaLat = none ∨ p.metaLon = none →
      query_pioupiou dist (Fetch.ok (some [p])) lat lon radius = []) := by
  refine ⟨?_, ?_, ?_, ?_⟩
  · intro h1 h2 h3
    simp [query_ffvl, ffvlLoop, h1, h2, pyFloatD0, h3]
  · intro h1 h2 h3
    simp [query_ffvl, ffvlLoop, h1, h2, pyFloatD0, h3]
  · intro h1 h2 h3
    simp [query_ffvl, ffvlLoop, h1, h2, pyFloatD0, h3]
  · rintro (h | h)
    · simp [query_pioupiou, pioupiouLoop, h]
    · cases hml : p.metaLat <;>
        simp [query_pioupiou, pioupiouLoop, hml, h]

/-- C8 witness: beacons missing only the latitude, only the longitude,
and both coordinates are each reported with the missing axis defaulted to
0, while a Pioupiou station with a missing coordinate is dropped. -/
theorem c8_ffvl_defaults_pioupiou_skips_witness :
    (query_ffvl (fun _ _ _ _ => 0) true
      (Fetch.ok [⟨some "B1", none, some (JVal.num 5)⟩]) 0 0 50 =
      [⟨"B1", 0, 5, round1 0⟩]) ∧
    (query_ffvl (fun _ _ _ _ => 0) true
      (Fetch.ok [⟨some "B2", some (JVal.num 7), none⟩]) 0 0 50 =
      [⟨"B2", 7, 0, round1 0⟩]) ∧
    (query_ffvl (fun _ _ _ _ => 0) true
      (Fetch.ok [⟨some "B3", none, none⟩]) 0 0 50 =
      [⟨"B3", 0, 0, round1 0⟩]) ∧
    (query_pioupiou (fun _ _ _ _ => 0)
      (Fetch.ok (some [⟨none, none, none, some (JVal.num 1)⟩])) 0 0 50 =
      []) :=
  ⟨(c8_ffvl_defaults_pioupiou_skips (fun _ _ _ _ => 0) 0 0 50
      ⟨some "B1", none, some (JVal.num 5)⟩ 0 5
      ⟨none, none, none, some (JVal.num 1)⟩).1 rfl rfl (by norm_num),
   (c8_ffvl_defaults_pioupiou_skips (fun _ _ _ _ => 0) 0 0 50
      ⟨some "B2", some (JVal.num 7), none⟩ 7 0
      ⟨none, none, none, some (JVal.num 1)⟩).2.1 rfl rfl (by norm_num),
   (c8_ffvl_defaults_pioupiou_skips (fun _ _ _ _ => 0) 0 0 50
      ⟨some "B3", none, none⟩ 0 0
      ⟨none, none, none, some (JVal.num 1)⟩).2.2.1 rfl rfl (by norm_num),
   (c8_ffvl_defaults_pioupiou_skips (fun _ _ _ _ => 0) 0 0 50
      ⟨some "B3", none, none⟩ 0 0
      ⟨none, none, none, some (JVal.num 1)⟩).2.2.2 (Or.inl rfl)⟩

/-! ### C9: every stored distance comes from an admitted exact distance -/

/-- Loop invariant for `query_ffvl`: every emitted station was admitted
with some exact distance at most the radius, and stores its rounding. -/
theorem ffvlLoop_mem_dist (dist : ℚ → ℚ → ℚ → ℚ → ℚ) (lat lon radius : ℚ) :
    ∀ (l : List BeaconJ) (acc : List Station),
      (∀ s ∈ acc, dist lat lon s.lat s.lon ≤ radius ∧
        s.distance_km = round1 (dist lat lon s.lat s.lon)) →
      ∀ s ∈ ffvlLoop dist lat lon radius l acc,
        dist lat lon s.lat s.lon ≤ radius ∧
          s.distance_km = round1 (dist lat lon s.lat s.lon) := by
  intro l
  induction l with
  | nil => intro acc hacc s hs; exact hacc s hs
  | cons b bs ih =>
    intro acc hacc s hs
    rw [ffvlLoop] at hs
    split at hs
    · rename_i blat blon heqlat heqlon
      split at hs
      · rename_i hd
        refine ih _ ?_ s hs
        intro s' hs'
        rcases List.mem_append.mp hs' with h' | h'
        · exact hacc s' h'
        · rw [List.mem_singleton.mp h']
          exact ⟨hd, rfl⟩
      · exact ih acc hacc s hs
    · exact hacc s hs

/-- Loop invariant for `query_pioupiou`: as for `ffvlLoop_mem_dist`. -/
theorem pioupiouLoop_mem_dist (dist : ℚ → ℚ → ℚ → ℚ → ℚ)
    (lat lon radius : ℚ) :
    ∀ (l : List PioupiouJ) (acc : List Station),
      (∀ s ∈ acc, dist lat lon s.lat s.lon ≤ radius ∧
        s.distance_km = round1 (dist lat lon s.lat s.lon)) →
      ∀ s ∈ pioupiouLoop dist lat lon radius l acc,
        dist lat lon s.lat s.lon ≤ radius ∧
          s.distance_km = round1 (dist lat lon s.lat s.lon) := by
  intro l
  induction l with
  | nil => intro acc hacc s hs; exact hacc s hs
  | cons p ps ih =>
    intro acc hacc s hs
    rw [pioupiouLoop] at hs
    split at hs
    · exact ih acc hacc s hs
    · exact ih acc hacc s hs
    · rename_i plat plon heqlat heqlon
      split at hs
      · rename_i hd
        refine ih _ ?_ s hs
        intro s' hs'
        rcases List.mem_append.mp hs' with h' | h'
        · exact hacc s' h'
        · rw [List.mem_singleton.mp h']
          exact ⟨hd, rfl⟩
      · exact ih acc hacc s hs
    · exact hacc s hs

/-- Loop invariant for `query_awc_metar`: as for `ffvlLoop_mem_dist`. -/
theorem awcLoop_mem_dist (dist : ℚ → ℚ → ℚ → ℚ → ℚ) (lat lon radius : ℚ) :
    ∀ (l : List MetarJ) (acc : List Station),
      (∀ s ∈ acc, dist lat lon s.lat s.lon ≤ radius ∧
        s.distance_km = round1 (dist lat lon s.lat s.lon)) →
      ∀ s ∈ awcLoop dist lat lon radius l acc,
        dist lat lon s.lat s.lon ≤ radius ∧
          s.distance_km = round1 (dist lat lon s.lat s.lon) := by
  intro l
  induction l with
  | nil => intro acc hacc s hs; exact hacc s hs
  | cons m ms ih =>
    intro acc hacc s hs
    rw [awcLoop] at hs
    split at hs
    · exact ih acc hacc s hs
    · exact ih acc hacc s hs
    · rename_i mlat mlon heqlat heqlon
      split at hs
      · rename_i hd
        refine ih _ ?_ s hs
        intro s' hs'
        rcases List.mem_append.mp hs' with h' | h'
        · exact hacc s' h'
        · rw [List.mem_singleton.mp h']
          exact ⟨hd, rfl⟩
      · exact ih acc hacc s hs
    · exact hacc s hs

/-- Loop invariant for `query_nws`: as for `ffvlLoop_mem_dist`. -/
theorem nwsLoop_mem_dist (dist : ℚ → ℚ → ℚ → ℚ → ℚ) (lat lon radius : ℚ) :
    ∀ (l : List NwsFeature) (acc : List Station),
      (∀ s ∈ acc, dist lat lon s.lat s.lon ≤ radius ∧
        s.distance_km = round1 (dist lat lon s.lat s.lon)) →
      ∀ s ∈ nwsLoop dist lat lon radius l acc,
        dist lat lon s.lat s.lon ≤ radius ∧
          s.distance_km = round1 (dist lat lon s.lat s.lon) := by
  intro l
  induction l with
  | nil => intro acc hacc s hs; exact hacc s hs
  | cons f fs ih =>
    intro acc hacc s hs
    rw [nwsLoop] at hs
    split at hs
    · rename_i c0 c1 rest heq
      split at hs
      · rename_i slon slat
        split at hs
        · rename_i hd
          refine ih _ ?_ s hs
          intro s' hs'
          rcases List.mem_append.mp hs' with h' | h'
          · exact hacc s' h'
          · rw [List.mem_singleton.mp h']
            exact ⟨hd, rfl⟩
        · exact ih acc hacc s hs
      · exact hacc s hs
    · exact ih acc hacc s hs

/-- C9 (confirmed): every station record any adapter returns was admitted
because its exact (abstracted) distance from the target to the record's
own coordinates was at most `radius_km`; the stored `distance_km` is that
very distance rounded to one decimal place, and hence never exceeds
`radius_km + 0.05`. -/
theorem c9_stored_distance_bounded (dist : ℚ → ℚ → ℚ → ℚ → ℚ)
    (keyConfigured : Bool) (lat lon radius : ℚ)
    (e1 : Fetch (List BeaconJ)) (e2 : Fetch (Option (List PioupiouJ)))
    (e3 : Fetch (List MetarJ)) (e4 : Fetch NwsPoints)
    (e5 : Fetch (Option (List NwsFeature))) :
    (∀ s ∈ query_ffvl dist keyConfigured e1 lat lon radius,
       dist lat lon s.lat s.lon ≤ radius ∧
         s.distance_km = round1 (dist lat lon s.lat s.lon) ∧
         s.distance_km ≤ radius + 1/20) ∧
    (∀ s ∈ query_pioupiou dist e2 lat lon radius,
       dist lat lon s.lat s.lon ≤ radius ∧
         s.distance_km = round1 (dist lat lon s.lat s.lon) ∧
         s.distance_km ≤ radius + 1/20) ∧
    (∀ s ∈ query_awc_metar dist e3 lat lon radius,
       dist lat lon s.lat s.lon ≤ radius ∧
         s.distance_km = round1 (dist lat lon s.lat s.lon) ∧
         s.distance_km ≤ radius + 1/20) ∧
    (∀ s ∈ query_nws dist e4 e5 lat lon radius,
       dist lat lon s.lat s.lon ≤ radius ∧
         s.distance_km = round1 (dist lat lon s.lat s.lon) ∧
         s.distance_km ≤ radius + 1/20) ∧
    (∀ s ∈ query_bom lat lon radius,
       dist lat lon s.lat s.lon ≤ radius ∧
         s.distance_km = round1 (dist lat lon s.lat s.lon) ∧
         s.distance_km ≤ radius + 1/20) := by
  have strengthen : ∀ s : Station,
      (dist lat lon s.lat s.lon ≤ radius ∧
        s.distance_km = round1 (dist lat lon s.lat s.lon)) →
      dist lat lon s.lat s.lon ≤ radius ∧
        s.distance_km = round1 (dist lat lon s.lat s.lon) ∧
        s.distance_km ≤ radius + 1/20 := by
    rintro s ⟨hd, he⟩
    refine ⟨hd, he, ?_⟩
    rw [he]
    linarith [round1_le (dist lat lon s.lat s.lon)]
  refine ⟨?_, ?_, ?_, ?_, ?_⟩
  · intro s hs
    apply strengthen
    unfold query_ffvl at hs
    split at hs
    · split at hs
      all_goals try exact absurd hs (List.not_mem_nil s)
      rename_i data
      exact ffvlLoop_mem_dist dist lat lon radius data [] (by simp) s hs
    · exact absurd hs (List.not_mem_nil s)
  · intro s hs
    apply strengthen
    unfold query_pioupiou at hs
    split at hs
    all_goals try exact absurd hs (List.not_mem_nil s)
    rename_i body
    exact pioupiouLoop_mem_dist dist lat lon radius (body.getD []) []
      (by simp) s hs
  · intro s hs
    apply strengthen
    unfold query_awc_metar at hs
    split at hs
    all_goals try exact absurd hs (List.not_mem_nil s)
    rename_i data
    exact awcLoop_mem_dist dist lat lon radius data [] (by simp) s hs
  · intro s hs
    apply strengthen
    unfold query_nws at hs
    split at hs
    · split at hs
      all_goals try exact absurd hs (List.not_mem_nil s)
      split at hs
      all_goals try exact absurd hs (List.not_mem_nil s)
      split at hs
      all_goals try exact absurd hs (List.not_mem_nil s)
      rename_i body
      exact nwsLoop_mem_dist dist lat lon radius (body.getD []) []
        (by simp) s hs
    · exact absurd hs (List.not_mem_nil s)
  · intro s hs
    unfold query_bom at hs
    split at hs
    · exact absurd hs (List.not_mem_nil s)
    · exact absurd hs (List.not_mem_nil s)

/-- C9 witness: the FFVL adapter at a concrete input admits a station at
exact distance 0 to its own coordinates, storing
`round1 0 ≤ 50 + 0.05`. -/
theorem c9_stored_distance_bounded_witness :
    (0 : ℚ) ≤ 50 ∧ (round1 0 : ℚ) = round1 0 ∧
      (round1 0 : ℚ) ≤ 50 + 1/20 := by
  have hmem : (⟨"Good", 1, 1, round1 0⟩ : Station) ∈
      query_ffvl (fun _ _ _ _ => 0) true
        (Fetch.ok [⟨some "Good", some (JVal.num 1), some (JVal.num 1)⟩])
        0 0 50 := by
    simp [query_ffvl, ffvlLoop, pyFloatD0, show (0:ℚ) ≤ 50 by norm_num]
  exact (c9_stored_distance_bounded (fun _ _ _ _ => 0) true 0 0 50
    (Fetch.ok [⟨some "Good", some (JVal.num 1), some (JVal.num 1)⟩])
    (Fetch.ok none) (Fetch.ok []) Fetch.netError (Fetch.ok none)).1
    ⟨"Good", 1, 1, round1 0⟩ hmem

end CheckWeatherStations
